import Mathlib

/-!
Shallow embedding of `src/server.py` (Docling Granite API, port-9000 variant).

The server accepts a PDF upload on POST /convert, validates filename
extension and size, writes the payload to a temporary file, hands it to the
external docling conversion library, reshapes the returned document into a
JSON envelope, and serves three GET endpoints for health/status.

The external library call is opaque: it is modelled as a `ConvOutcome`
(either a structured `DoclingDocument` or a raised exception message).
Everything downstream of that call — element extraction loops, page-number
defaulting, full-text assembly, fallback control flow, HTTP status
selection, temporary-file cleanup — is translated from the source.

Python string primitives (`str.lower`, `str.endswith`, `str.strip`,
substring membership) are implemented over `List Char` so that all
definitions evaluate inside the kernel.
-/

namespace DoclingServer

/-- Python `s.lower()` (ASCII case folding, as exercised by the code). -/
def lowerStr (s : String) : String := ⟨s.data.map Char.toLower⟩

/-- Python `s.endswith(suf)`. -/
def strEndsWith (s suf : String) : Bool := suf.data.isSuffixOf s.data

/-- Python `s.strip()`: remove leading and trailing whitespace. -/
def trimStr (s : String) : String :=
  ⟨((s.data.dropWhile Char.isWhitespace).reverse.dropWhile Char.isWhitespace).reverse⟩

/-- Python `sub in hay` on strings. -/
def containsSub (hay sub : String) : Bool :=
  (List.range (hay.data.length + 1)).any (fun i => sub.data.isPrefixOf (hay.data.drop i))

/-- One provenance entry of a docling item; the server only reads `page_no`. -/
structure Prov where
  page_no : Nat

/-- A member of `doc.texts`. `prov = []` models a missing or empty `prov` attribute
(the code guards with `hasattr`, truthiness and `len(...) > 0`, all of which
collapse to emptiness of the list). -/
structure TextItem where
  text : String
  prov : List Prov

/-- A member of `doc.tables`; `data` holds the cell texts row by row, as read by
`getattr(cell, 'text', str(cell))`. -/
structure TableItem where
  data : List (List String)
  prov : List Prov

/-- A picture annotation: the `kind` and `text` attributes read via `getattr`. -/
structure PicAnnot where
  kind : String
  text : String

/-- The picture's `image` payload: its `uri` and whether `os.path.exists(uri)`. -/
structure ImgFile where
  uri : String
  on_disk : Bool

/-- A member of `doc.pictures`. `image = none` models a falsy `img.image`;
`caption` models `getattr(img, "caption", "") or ""`; `annots = []` models a
missing or empty `annotations` attribute. -/
structure PictureItem where
  image : Option ImgFile
  caption : String
  annots : List PicAnnot
  prov : List Prov

/-- The structured document returned by `converter.convert(path).document`. -/
structure DoclingDocument where
  texts : List TextItem
  tables : List TableItem
  pictures : List PictureItem

/-- One entry of the response's `elementos` list, mirroring the three dict
shapes built by the server (`tipo` in {texto, tabela, imagem}). For pictures,
`descricoes` keeps the `texto` of each Granite description dict. -/
inductive Elemento where
  | texto (conteudo : String) (pagina : Nat)
  | tabela (dados : List (List String)) (pagina : Nat)
  | imagem (url : Option String) (legenda : String) (descricoes : List String) (pagina : Nat)

/-- The `tipo` field of the element dict (used by the server's own counts). -/
def Elemento.tipo : Elemento → String
  | .texto .. => "texto"
  | .tabela .. => "tabela"
  | .imagem .. => "imagem"

/-- The `pagina` field of the element dict. -/
def Elemento.pagina : Elemento → Nat
  | .texto _ p => p
  | .tabela _ p => p
  | .imagem _ _ _ p => p

/-- Numeric rank of the element kind in the order the loops run:
texts, then tables, then pictures. -/
def Elemento.rank : Elemento → Nat
  | .texto .. => 0
  | .tabela .. => 1
  | .imagem .. => 2

/-- `pagina = 1; if hasattr(item, 'prov') and item.prov and len(item.prov) > 0:
pagina = item.prov[0].page_no`. -/
def pageOf : List Prov → Nat
  | [] => 1
  | p :: _ => p.page_no

/-- Modelled from the spec: "attaches page numbers when provenance metadata is
present (defaulting to page 1 otherwise)" — the spec-side page rule, to be
compared with `pageOf`, which is translated from the code. -/
def specPageNumber (prov : List Prov) : Nat :=
  if 0 < prov.length then (prov.headD { page_no := 1 }).page_no else 1

/-- The Granite descriptions gathered from a picture's annotations: those with
`kind == 'description'` and non-blank text, trimmed
(`desc_text = str(ann_text).strip()`). -/
def graniteDescs (anns : List PicAnnot) : List String :=
  anns.filterMap (fun a =>
    if a.kind == "description" && !(trimStr a.text == "") then some (trimStr a.text) else none)

/-- The line appended to `texto_completo` for one Granite description:
`f"[Granite Vision - Página {pagina}, Imagem {i+1}]: {desc_text}"`. -/
def graniteLine (pagina i : Nat) (desc : String) : String :=
  "[Granite Vision - Página " ++ toString pagina ++ ", Imagem " ++ toString (i + 1)
    ++ "]: " ++ desc

/-- The served URL of a saved picture, or `none` when `img.image` is falsy, its
`uri` is falsy, or the file is not on disk. `stem` is `"granite_img_p"` on the
Granite path and `"fallback_img_p"` on the fallback path. -/
def imgUrl (stem : String) (img : PictureItem) (pagina i : Nat) : Option String :=
  match img.image with
  | some f =>
      if !(f.uri == "") && f.on_disk then
        some ("/images/" ++ stem ++ toString pagina ++ "_" ++ toString i ++ ".png")
      else none
  | none => none

/-- The loop over `doc.texts`: appends an element and a `texto_completo` entry
for each text whose content is non-blank (`if texto.text and texto.text.strip()`). -/
def textsLoop : List TextItem → List Elemento × List String
  | [] => ([], [])
  | t :: rest =>
      let r := textsLoop rest
      if trimStr t.text == "" then r
      else (Elemento.texto t.text (pageOf t.prov) :: r.1, t.text :: r.2)

/-- The loop over `doc.tables` (the per-table `try/except` is modelled on its
non-raising path). -/
def tablesLoop (tables : List TableItem) : List Elemento :=
  tables.map (fun t => Elemento.tabela t.data (pageOf t.prov))

/-- The Granite loop over `enumerate(doc.pictures)`: per picture, the element
plus the description lines added to `texto_completo`. -/
def picsLoopGranite : List PictureItem → Nat → List Elemento × List String
  | [], _ => ([], [])
  | img :: rest, i =>
      let pagina := pageOf img.prov
      let url := imgUrl "granite_img_p" img pagina i
      let descs := graniteDescs img.annots
      let r := picsLoopGranite rest (i + 1)
      (Elemento.imagem url img.caption descs pagina :: r.1,
       descs.map (graniteLine pagina i) ++ r.2)

/-- The fallback loop over `enumerate(doc.pictures)`: elements with an empty
`descricoes_granite` list and the fallback file-name stem. -/
def picsLoopFallback : List PictureItem → Nat → List Elemento
  | [], _ => []
  | img :: rest, i =>
      let pagina := pageOf img.prov
      Elemento.imagem (imgUrl "fallback_img_p" img pagina i) img.caption [] pagina
        :: picsLoopFallback rest (i + 1)

/-- A JSON value, used to model the dict payloads the endpoints return. -/
inductive JValue where
  | str (s : String)
  | num (n : Nat)
  | bool (b : Bool)
  | null
  | arr (xs : List JValue)
  | obj (fields : List (String × JValue))

/-- Top-level keys of a JSON object. -/
def JValue.keys : JValue → List String
  | .obj fs => fs.map Prod.fst
  | _ => []

/-- Whether a JSON object has a top-level key `k`. -/
def JValue.hasKey (j : JValue) (k : String) : Bool :=
  j.keys.any (fun s => s == k)

/-- Value at top-level key `k` of a JSON object, when present. -/
def JValue.get (j : JValue) (k : String) : Option JValue :=
  match j with
  | .obj fs => (fs.find? (fun f => f.1 == k)).map Prod.snd
  | _ => none

/-- The `resumo` dict of the Granite result. -/
def resumoGranite (nElems nTextos nTabelas nImagens contador : Nat) : JValue :=
  .obj [("total_elementos", .num nElems), ("total_textos", .num nTextos),
        ("total_tabelas", .num nTabelas), ("total_imagens", .num nImagens),
        ("descricoes_granite", .num contador), ("modelo", .str "granite-vision"),
        ("status", .str "sucesso_com_granite"), ("granite_ativo", .bool true),
        ("taxa_sucesso", .str (if nImagens > 0
          then toString contador ++ "/" ++ toString nImagens else "0/0"))]

/-- The dict returned by the processing functions: `elementos`, `texto`, `resumo`. -/
structure ResultadoFinal where
  elementos : List Elemento
  texto : String
  resumo : JValue

/-- The successful body of `processar_documento_granite`: the three extraction
loops, the newline-joined full text with its blank-text placeholder, and the
summary dict. `contador_granite` counts one per accepted description. -/
def processar_granite_doc (doc : DoclingDocument) : ResultadoFinal :=
  let tr := textsLoop doc.texts
  let tabs := tablesLoop doc.tables
  let pr := picsLoopGranite doc.pictures 0
  let elementos := tr.1 ++ tabs ++ pr.1
  let texto_completo := tr.2 ++ pr.2
  let contador := pr.2.length
  let total_texto := String.intercalate "\n" texto_completo
  let texto := if trimStr total_texto == ""
    then "Nenhum texto foi extraído do documento." else total_texto
  let nTextos := (elementos.filter (fun e => e.tipo == "texto")).length
  let nTabelas := (elementos.filter (fun e => e.tipo == "tabela")).length
  let nImagens := (elementos.filter (fun e => e.tipo == "imagem")).length
  { elementos := elementos, texto := texto,
    resumo := resumoGranite elementos.length nTextos nTabelas nImagens contador }

/-- The successful body of `processar_documento_fallback`: same loops without
VLM descriptions; no placeholder is substituted for an empty full text. -/
def fallback_doc (doc : DoclingDocument) : ResultadoFinal :=
  let tr := textsLoop doc.texts
  let elementos := tr.1 ++ tablesLoop doc.tables ++ picsLoopFallback doc.pictures 0
  { elementos := elementos,
    texto := String.intercalate "\n" tr.2,
    resumo := .obj [("total_elementos", .num elementos.length),
                    ("descricoes_granite", .num 0),
                    ("modelo", .str "fallback-sem-vlm"),
                    ("status", .str "sucesso_fallback")] }

/-- The opaque external conversion call: either a structured document or a
raised exception carrying `str(e)`. -/
inductive ConvOutcome where
  | ok (doc : DoclingDocument)
  | raised (msg : String)

/-- `processar_documento_fallback`: converts without VLM; on any exception it
returns the error envelope instead of raising. -/
def processar_documento_fallback (conv : ConvOutcome) : ResultadoFinal :=
  match conv with
  | .ok doc => fallback_doc doc
  | .raised msg =>
      { elementos := [],
        texto := "Erro crítico: " ++ msg,
        resumo := .obj [("total_elementos", .num 0), ("descricoes_granite", .num 0),
                        ("modelo", .str "erro"), ("status", .str "falha_total")] }

/-- `"buffer size" in str(e).lower() or "memory" in str(e).lower()`. -/
def isMemError (msg : String) : Bool :=
  containsSub (lowerStr msg) "buffer size" || containsSub (lowerStr msg) "memory"

/-- Result of `processar_documento_granite`: a returned dict or a raised
`HTTPException(status_code, detail)`. -/
inductive ProcResult where
  | success (r : ResultadoFinal)
  | httpError (statusCode : Nat) (detail : String)

/-- `processar_documento_granite`: raises 500 when docling failed to import;
otherwise converts with the Granite VLM options; when that raises, it retries
via the no-VLM fallback only for memory-related messages and raises
`HTTPException(500)` for every other message. `conv` is the Granite conversion
outcome, `fb` the outcome of the fallback's own conversion. -/
def processar_documento_granite (docling_ok : Bool) (conv fb : ConvOutcome) : ProcResult :=
  if !docling_ok then .httpError 500 "Docling não disponível"
  else
    match conv with
    | .ok doc => .success (processar_granite_doc doc)
    | .raised msg =>
        if isMemError msg then .success (processar_documento_fallback fb)
        else .httpError 500 ("Erro Granite: " ++ msg)

/-- The upload as the endpoint sees it: `UploadFile.filename` (absent uploads
carry `None`) and `len(conteudo)` in bytes. -/
structure Request where
  filename : Option String
  size : Nat

/-- Observable outcome of one POST /convert request: HTTP status, JSON body on
success, error detail, whether the conversion step ran, whether the temporary
file was created, and whether it is still on disk when the response leaves. -/
structure EndpointResult where
  statusCode : Nat
  body : Option ResultadoFinal
  detail : Option String
  convAttempted : Bool
  tempCreated : Bool
  tempOnDiskAfter : Bool

/-- The `finally` block: `if arquivo_temp and os.path.exists(arquivo_temp):
os.unlink(arquivo_temp)`. -/
def finallyCleanup (tempOnDisk : Bool) : Bool :=
  if tempOnDisk then false else tempOnDisk

/-- `converter_documento`, the POST /convert handler. A `None` filename makes
`file.filename.lower()` raise `AttributeError` before the `try` block, which
the framework surfaces as HTTP 500. The size guard `tamanho_mb > 25` with
`tamanho_mb = len(conteudo) / (1024 * 1024)` is exact division by a power of
two, hence equivalent to `len(conteudo) > 25 * 1024 * 1024`. The oversize
detail's interpolated megabyte figure is elided. On both the success path and
the re-raised `HTTPException` path the `finally` block removes the temporary
file. -/
def converter_documento (req : Request) (docling_ok : Bool) (conv fb : ConvOutcome) :
    EndpointResult :=
  match req.filename with
  | none =>
      { statusCode := 500, body := none, detail := some "Internal Server Error",
        convAttempted := false, tempCreated := false, tempOnDiskAfter := false }
  | some fn =>
      if !(strEndsWith (lowerStr fn) ".pdf") then
        { statusCode := 400, body := none, detail := some "Apenas arquivos PDF são aceitos",
          convAttempted := false, tempCreated := false, tempOnDiskAfter := false }
      else if 25 * 1024 * 1024 < req.size then
        { statusCode := 400, body := none,
          detail := some "Arquivo muito grande para Granite. Máximo: 25MB",
          convAttempted := false, tempCreated := false, tempOnDiskAfter := false }
      else
        let tempOnDisk := true
        match processar_documento_granite docling_ok conv fb with
        | .success r =>
            { statusCode := 200, body := some r, detail := none,
              convAttempted := true, tempCreated := true,
              tempOnDiskAfter := finallyCleanup tempOnDisk }
        | .httpError s d =>
            { statusCode := s, body := none, detail := some d,
              convAttempted := true, tempCreated := true,
              tempOnDiskAfter := finallyCleanup tempOnDisk }

/-- GET / : always HTTP 200 with the fixed status dict. -/
def status (docling_ok : Bool) : Nat × JValue :=
  (200, .obj [("status", .str "ok"), ("docling", .bool docling_ok),
              ("modelo", .str "granite-vision"), ("porta", .num 9000)])

/-- GET /test : always HTTP 200 with the fixed status dict. -/
def teste (docling_ok : Bool) : Nat × JValue :=
  (200, .obj [("status", .str "Granite API OK"), ("docling", .bool docling_ok),
              ("modelo", .str "granite-vision"),
              ("endpoint_principal", .str "/convert"),
              ("granite_ativo", .bool true), ("porta", .num 9000)])

/-- GET /status : always HTTP 200 with the detailed capability dict. -/
def status_detalhado (docling_ok : Bool) : Nat × JValue :=
  (200, .obj [("docling_disponivel", .bool docling_ok),
              ("granite_ativo", .bool true),
              ("porta", .num 9000),
              ("endpoints", .obj [("principal", .str "/convert"),
                                  ("teste", .str "/test-granite"),
                                  ("status", .str "/test")]),
              ("limites", .obj [("tamanho_max", .str "25MB"),
                                ("formatos", .arr [.str "PDF"])]),
              ("recursos", .obj [("vlm", .str "granite-vision"), ("ocr", .bool true),
                                 ("tabelas", .bool true), ("imagens", .bool true)])])

/-- JSON encoding of one Granite description dict. -/
def descToJson (d : String) : JValue :=
  .obj [("texto", .str d), ("modelo", .str "granite-vision"), ("confianca", .str "alta")]

/-- JSON encoding of one element dict (Granite-path shape, which carries
`total_descricoes` on pictures). -/
def elementoToJson : Elemento → JValue
  | .texto c p => .obj [("tipo", .str "texto"), ("conteudo", .str c), ("pagina", .num p)]
  | .tabela d p =>
      .obj [("tipo", .str "tabela"),
            ("dados", .arr (d.map (fun row => .arr (row.map JValue.str)))),
            ("pagina", .num p)]
  | .imagem url leg descs p =>
      .obj [("tipo", .str "imagem"),
            ("url", match url with | some u => .str u | none => .null),
            ("legenda", .str leg),
            ("descricoes_granite", .arr (descs.map descToJson)),
            ("pagina", .num p),
            ("total_descricoes", .num descs.length)]

/-- The JSON body `JSONResponse(content=resultado)` serializes. -/
def resultadoToJson (r : ResultadoFinal) : JValue :=
  .obj [("elementos", .arr (r.elementos.map elementoToJson)),
        ("texto", .str r.texto),
        ("resumo", r.resumo)]

/-- A document with one text block and one Granite-described picture, used as a
concrete conversion outcome. -/
def sampleDoc : DoclingDocument :=
  { texts := [{ text := "ola", prov := [] }],
    tables := [],
    pictures := [{ image := none, caption := "",
                   annots := [{ kind := "description", text := "um gato" }],
                   prov := [] }] }

/-- The empty converted document. -/
def emptyDoc : DoclingDocument := { texts := [], tables := [], pictures := [] }

/-- The code's page rule coincides with the spec's page rule. -/
theorem pageOf_eq_spec (prov : List Prov) : pageOf prov = specPageNumber prov := by
  cases prov <;> simp [pageOf, specPageNumber]

/-- The elements produced by the texts loop are the non-blank texts, in order. -/
theorem textsLoop_fst (ts : List TextItem) :
    (textsLoop ts).1 = (ts.filter (fun t => !(trimStr t.text == ""))).map
      (fun t => Elemento.texto t.text (pageOf t.prov)) := by
  induction ts with
  | nil => rfl
  | cons t rest ih =>
      by_cases h : trimStr t.text == "" <;>
        simp [textsLoop, h, List.filter_cons, ih]

/-- The `texto_completo` entries produced by the texts loop are the contents of
the non-blank texts, in order. -/
theorem textsLoop_snd (ts : List TextItem) :
    (textsLoop ts).2 = (ts.filter (fun t => !(trimStr t.text == ""))).map
      (fun t => t.text) := by
  induction ts with
  | nil => rfl
  | cons t rest ih =>
      by_cases h : trimStr t.text == "" <;>
        simp [textsLoop, h, List.filter_cons, ih]

/-- The Granite picture loop emits one image element per picture, in order. -/
theorem picsLoopGranite_fst (ps : List PictureItem) (i : Nat) :
    (picsLoopGranite ps i).1 = (List.enumFrom i ps).map (fun p =>
      Elemento.imagem (imgUrl "granite_img_p" p.2 (pageOf p.2.prov) p.1)
        p.2.caption (graniteDescs p.2.annots) (pageOf p.2.prov)) := by
  induction ps generalizing i with
  | nil => rfl
  | cons img rest ih => simp [picsLoopGranite, List.enumFrom, ih]

/-- The `texto_completo` entries emitted by the Granite picture loop are the
description lines, picture by picture, in order. -/
theorem picsLoopGranite_snd (ps : List PictureItem) (i : Nat) :
    (picsLoopGranite ps i).2 = (List.enumFrom i ps).flatMap (fun p =>
      (graniteDescs p.2.annots).map (graniteLine (pageOf p.2.prov) p.1)) := by
  induction ps generalizing i with
  | nil => rfl
  | cons img rest ih => simp [picsLoopGranite, List.enumFrom, ih]

/-- The fallback picture loop emits one image element per picture, in order. -/
theorem picsLoopFallback_eq (ps : List PictureItem) (i : Nat) :
    picsLoopFallback ps i = (List.enumFrom i ps).map (fun p =>
      Elemento.imagem (imgUrl "fallback_img_p" p.2 (pageOf p.2.prov) p.1)
        p.2.caption [] (pageOf p.2.prov)) := by
  induction ps generalizing i with
  | nil => rfl
  | cons img rest ih => simp [picsLoopFallback, List.enumFrom, ih]

/-- The Granite result's element list is the concatenation of the three loops. -/
theorem granite_elementos (doc : DoclingDocument) :
    (processar_granite_doc doc).elementos =
      (textsLoop doc.texts).1 ++ tablesLoop doc.tables
        ++ (picsLoopGranite doc.pictures 0).1 := rfl

/-- The fallback result's element list is the concatenation of the three loops. -/
theorem fallback_elementos (doc : DoclingDocument) :
    (fallback_doc doc).elementos =
      (textsLoop doc.texts).1 ++ tablesLoop doc.tables
        ++ picsLoopFallback doc.pictures 0 := rfl

/-- The Granite result's full text, in terms of the two loops. -/
theorem granite_texto (doc : DoclingDocument) :
    (processar_granite_doc doc).texto =
      (let total := String.intercalate "\n"
        ((textsLoop doc.texts).2 ++ (picsLoopGranite doc.pictures 0).2);
       if trimStr total == "" then "Nenhum texto foi extraído do documento."
       else total) := rfl

/-- Elements from the texts loop have kind `texto`. -/
theorem tipo_of_mem_textsLoop {ts : List TextItem} {e : Elemento}
    (he : e ∈ (textsLoop ts).1) : e.tipo = "texto" := by
  rw [textsLoop_fst] at he
  obtain ⟨t, -, rfl⟩ := List.mem_map.mp he
  rfl

/-- Elements from the tables loop have kind `tabela`. -/
theorem tipo_of_mem_tablesLoop {ts : List TableItem} {e : Elemento}
    (he : e ∈ tablesLoop ts) : e.tipo = "tabela" := by
  obtain ⟨t, -, rfl⟩ := List.mem_map.mp he
  rfl

/-- Elements from the Granite picture loop have kind `imagem`. -/
theorem tipo_of_mem_picsLoopGranite {ps : List PictureItem} {i : Nat} {e : Elemento}
    (he : e ∈ (picsLoopGranite ps i).1) : e.tipo = "imagem" := by
  rw [picsLoopGranite_fst] at he
  obtain ⟨p, -, rfl⟩ := List.mem_map.mp he
  rfl

/-- Elements from the fallback picture loop have kind `imagem`. -/
theorem tipo_of_mem_picsLoopFallback {ps : List PictureItem} {i : Nat} {e : Elemento}
    (he : e ∈ picsLoopFallback ps i) : e.tipo = "imagem" := by
  rw [picsLoopFallback_eq] at he
  obtain ⟨p, -, rfl⟩ := List.mem_map.mp he
  rfl

/-- An element of kind `texto` has rank 0. -/
theorem rank_of_tipo_texto {e : Elemento} (h : e.tipo = "texto") : e.rank = 0 := by
  cases e <;> first | rfl | simp [Elemento.tipo] at h

/-- An element of kind `tabela` has rank 1. -/
theorem rank_of_tipo_tabela {e : Elemento} (h : e.tipo = "tabela") : e.rank = 1 := by
  cases e <;> first | rfl | simp [Elemento.tipo] at h

/-- An element of kind `imagem` has rank 2. -/
theorem rank_of_tipo_imagem {e : Elemento} (h : e.tipo = "imagem") : e.rank = 2 := by
  cases e <;> first | rfl | simp [Elemento.tipo] at h

/-- A list of elements sharing one rank is internally sorted by rank. -/
theorem pairwise_rank_of_const {l : List Elemento} {c : Nat}
    (h : ∀ e ∈ l, Elemento.rank e = c) :
    l.Pairwise (fun a b => a.rank ≤ b.rank) := by
  induction l with
  | nil => exact List.Pairwise.nil
  | cons a t ih =>
      refine List.Pairwise.cons (fun b hb => ?_)
        (ih (fun e he => h e (List.mem_cons_of_mem a he)))
      rw [h a (List.mem_cons_self a t), h b (List.mem_cons_of_mem a hb)]

/-- Filtering the Granite result by kind `texto` recovers exactly the texts-loop
block. -/
theorem granite_filter_texto (doc : DoclingDocument) :
    (processar_granite_doc doc).elementos.filter (fun e => e.tipo == "texto")
      = (textsLoop doc.texts).1 := by
  have h1 : (textsLoop doc.texts).1.filter (fun e => e.tipo == "texto")
      = (textsLoop doc.texts).1 :=
    List.filter_eq_self.mpr (fun e he => by simp [tipo_of_mem_textsLoop he])
  have h2 : (tablesLoop doc.tables).filter (fun e => e.tipo == "texto") = [] :=
    List.filter_eq_nil_iff.mpr (fun e he => by simp [tipo_of_mem_tablesLoop he])
  have h3 : ((picsLoopGranite doc.pictures 0).1).filter (fun e => e.tipo == "texto")
      = [] :=
    List.filter_eq_nil_iff.mpr (fun e he => by simp [tipo_of_mem_picsLoopGranite he])
  rw [granite_elementos, List.filter_append, List.filter_append, h1, h2, h3,
    List.append_nil, List.append_nil]

/-- Filtering the Granite result by kind `tabela` recovers exactly the
tables-loop block. -/
theorem granite_filter_tabela (doc : DoclingDocument) :
    (processar_granite_doc doc).elementos.filter (fun e => e.tipo == "tabela")
      = tablesLoop doc.tables := by
  have h1 : (textsLoop doc.texts).1.filter (fun e => e.tipo == "tabela") = [] :=
    List.filter_eq_nil_iff.mpr (fun e he => by simp [tipo_of_mem_textsLoop he])
  have h2 : (tablesLoop doc.tables).filter (fun e => e.tipo == "tabela")
      = tablesLoop doc.tables :=
    List.filter_eq_self.mpr (fun e he => by simp [tipo_of_mem_tablesLoop he])
  have h3 : ((picsLoopGranite doc.pictures 0).1).filter (fun e => e.tipo == "tabela")
      = [] :=
    List.filter_eq_nil_iff.mpr (fun e he => by simp [tipo_of_mem_picsLoopGranite he])
  rw [granite_elementos, List.filter_append, List.filter_append, h1, h2, h3,
    List.append_nil, List.nil_append]

/-- Filtering the Granite result by kind `imagem` recovers exactly the
pictures-loop block. -/
theorem granite_filter_imagem (doc : DoclingDocument) :
    (processar_granite_doc doc).elementos.filter (fun e => e.tipo == "imagem")
      = (picsLoopGranite doc.pictures 0).1 := by
  have h1 : (textsLoop doc.texts).1.filter (fun e => e.tipo == "imagem") = [] :=
    List.filter_eq_nil_iff.mpr (fun e he => by simp [tipo_of_mem_textsLoop he])
  have h2 : (tablesLoop doc.tables).filter (fun e => e.tipo == "imagem") = [] :=
    List.filter_eq_nil_iff.mpr (fun e he => by simp [tipo_of_mem_tablesLoop he])
  have h3 : ((picsLoopGranite doc.pictures 0).1).filter (fun e => e.tipo == "imagem")
      = (picsLoopGranite doc.pictures 0).1 :=
    List.filter_eq_self.mpr (fun e he => by simp [tipo_of_mem_picsLoopGranite he])
  rw [granite_elementos, List.filter_append, List.filter_append, h1, h2, h3,
    List.nil_append, List.nil_append]

/-- Filtering the fallback result by kind `texto` recovers exactly the
texts-loop block. -/
theorem fallback_filter_texto (doc : DoclingDocument) :
    (fallback_doc doc).elementos.filter (fun e => e.tipo == "texto")
      = (textsLoop doc.texts).1 := by
  have h1 : (textsLoop doc.texts).1.filter (fun e => e.tipo == "texto")
      = (textsLoop doc.texts).1 :=
    List.filter_eq_self.mpr (fun e he => by simp [tipo_of_mem_textsLoop he])
  have h2 : (tablesLoop doc.tables).filter (fun e => e.tipo == "texto") = [] :=
    List.filter_eq_nil_iff.mpr (fun e he => by simp [tipo_of_mem_tablesLoop he])
  have h3 : (picsLoopFallback doc.pictures 0).filter (fun e => e.tipo == "texto")
      = [] :=
    List.filter_eq_nil_iff.mpr (fun e he => by simp [tipo_of_mem_picsLoopFallback he])
  rw [fallback_elementos, List.filter_append, List.filter_append, h1, h2, h3,
    List.append_nil, List.append_nil]

/-- Filtering the fallback result by kind `tabela` recovers exactly the
tables-loop block. -/
theorem fallback_filter_tabela (doc : DoclingDocument) :
    (fallback_doc doc).elementos.filter (fun e => e.tipo == "tabela")
      = tablesLoop doc.tables := by
  have h1 : (textsLoop doc.texts).1.filter (fun e => e.tipo == "tabela") = [] :=
    List.filter_eq_nil_iff.mpr (fun e he => by simp [tipo_of_mem_textsLoop he])
  have h2 : (tablesLoop doc.tables).filter (fun e => e.tipo == "tabela")
      = tablesLoop doc.tables :=
    List.filter_eq_self.mpr (fun e he => by simp [tipo_of_mem_tablesLoop he])
  have h3 : (picsLoopFallback doc.pictures 0).filter (fun e => e.tipo == "tabela")
      = [] :=
    List.filter_eq_nil_iff.mpr (fun e he => by simp [tipo_of_mem_picsLoopFallback he])
  rw [fallback_elementos, List.filter_append, List.filter_append, h1, h2, h3,
    List.append_nil, List.nil_append]

/-- Filtering the fallback result by kind `imagem` recovers exactly the
pictures-loop block. -/
theorem fallback_filter_imagem (doc : DoclingDocument) :
    (fallback_doc doc).elementos.filter (fun e => e.tipo == "imagem")
      = picsLoopFallback doc.pictures 0 := by
  have h1 : (textsLoop doc.texts).1.filter (fun e => e.tipo == "imagem") = [] :=
    List.filter_eq_nil_iff.mpr (fun e he => by simp [tipo_of_mem_textsLoop he])
  have h2 : (tablesLoop doc.tables).filter (fun e => e.tipo == "imagem") = [] :=
    List.filter_eq_nil_iff.mpr (fun e he => by simp [tipo_of_mem_tablesLoop he])
  have h3 : (picsLoopFallback doc.pictures 0).filter (fun e => e.tipo == "imagem")
      = picsLoopFallback doc.pictures 0 :=
    List.filter_eq_self.mpr (fun e he => by simp [tipo_of_mem_picsLoopFallback he])
  rw [fallback_elementos, List.filter_append, List.filter_append, h1, h2, h3,
    List.nil_append, List.nil_append]

/-- The Granite result's elements carry weakly increasing kind ranks. -/
theorem granite_grouped (doc : DoclingDocument) :
    ((processar_granite_doc doc).elementos).Pairwise (fun a b => a.rank ≤ b.rank) := by
  rw [granite_elementos, List.pairwise_append]
  refine ⟨?_, ?_, ?_⟩
  · rw [List.pairwise_append]
    refine ⟨pairwise_rank_of_const
        (fun e he => rank_of_tipo_texto (tipo_of_mem_textsLoop he)),
      pairwise_rank_of_const
        (fun e he => rank_of_tipo_tabela (tipo_of_mem_tablesLoop he)),
      fun a ha b hb => ?_⟩
    rw [rank_of_tipo_texto (tipo_of_mem_textsLoop ha),
      rank_of_tipo_tabela (tipo_of_mem_tablesLoop hb)]
    omega
  · exact pairwise_rank_of_const
      (fun e he => rank_of_tipo_imagem (tipo_of_mem_picsLoopGranite he))
  · intro a ha b hb
    rw [rank_of_tipo_imagem (tipo_of_mem_picsLoopGranite hb)]
    rcases List.mem_append.mp ha with h | h
    · rw [rank_of_tipo_texto (tipo_of_mem_textsLoop h)]; omega
    · rw [rank_of_tipo_tabela (tipo_of_mem_tablesLoop h)]; omega

/-- The fallback result's elements carry weakly increasing kind ranks. -/
theorem fallback_grouped (doc : DoclingDocument) :
    ((fallback_doc doc).elementos).Pairwise (fun a b => a.rank ≤ b.rank) := by
  rw [fallback_elementos, List.pairwise_append]
  refine ⟨?_, ?_, ?_⟩
  · rw [List.pairwise_append]
    refine ⟨pairwise_rank_of_const
        (fun e he => rank_of_tipo_texto (tipo_of_mem_textsLoop he)),
      pairwise_rank_of_const
        (fun e he => rank_of_tipo_tabela (tipo_of_mem_tablesLoop he)),
      fun a ha b hb => ?_⟩
    rw [rank_of_tipo_texto (tipo_of_mem_textsLoop ha),
      rank_of_tipo_tabela (tipo_of_mem_tablesLoop hb)]
    omega
  · exact pairwise_rank_of_const
      (fun e he => rank_of_tipo_imagem (tipo_of_mem_picsLoopFallback he))
  · intro a ha b hb
    rw [rank_of_tipo_imagem (tipo_of_mem_picsLoopFallback hb)]
    rcases List.mem_append.mp ha with h | h
    · rw [rank_of_tipo_texto (tipo_of_mem_textsLoop h)]; omega
    · rw [rank_of_tipo_tabela (tipo_of_mem_tablesLoop h)]; omega

/-- C1 counterexample: on a valid upload, the endpoint answers 500 — not 200 —
both when the conversion library is unavailable and when the conversion raises
a non-memory exception. -/
theorem c1_counterexample :
    ¬ ((converter_documento { filename := some "doc.pdf", size := 1000 } false
        (ConvOutcome.raised "boom") (ConvOutcome.ok emptyDoc)).statusCode = 200) ∧
    ¬ ((converter_documento { filename := some "doc.pdf", size := 1000 } true
        (ConvOutcome.raised "boom") (ConvOutcome.ok emptyDoc)).statusCode = 200) := by
  decide

/-- C1 (amended): the endpoint returns HTTP 200 with the no-VLM fallback
payload exactly when the library is loaded and the conversion exception's
lowercased message contains "buffer size" or "memory"; the fallback payload is
`processar_documento_fallback` of the retry's outcome (a converted document,
or an error envelope when the retry also raises). -/
theorem c1_memory_fallback (fn : String) (sz : Nat) (msg : String) (fb : ConvOutcome)
    (hext : strEndsWith (lowerStr fn) ".pdf" = true)
    (hsz : sz ≤ 25 * 1024 * 1024)
    (hmem : isMemError msg = true) :
    (converter_documento { filename := some fn, size := sz } true
        (ConvOutcome.raised msg) fb).statusCode = 200 ∧
    (converter_documento { filename := some fn, size := sz } true
        (ConvOutcome.raised msg) fb).body = some (processar_documento_fallback fb) := by
  have hlt : ¬ (25 * 1024 * 1024 < sz) := Nat.not_lt.mpr hsz
  simp [converter_documento, processar_documento_granite, hext, hmem, hlt]

/-- C1 witness: a concrete memory-error upload for which the endpoint returns
200 with the fallback payload. -/
theorem c1_memory_fallback_witness :
    (converter_documento { filename := some "a.pdf", size := 0 } true
        (ConvOutcome.raised "CUDA out of memory") (ConvOutcome.ok emptyDoc)).statusCode
      = 200 ∧
    (converter_documento { filename := some "a.pdf", size := 0 } true
        (ConvOutcome.raised "CUDA out of memory") (ConvOutcome.ok emptyDoc)).body
      = some (processar_documento_fallback (ConvOutcome.ok emptyDoc)) :=
  c1_memory_fallback "a.pdf" 0 "CUDA out of memory" (ConvOutcome.ok emptyDoc)
    (by decide) (by decide) (by decide)

/-- C2 counterexample: the body of a concrete successful conversion has no
page-size-descriptor field — no top-level "pages" key and no "document"
wrapper; its only keys are elementos, texto and resumo. -/
theorem c2_counterexample :
    (resultadoToJson (processar_granite_doc emptyDoc)).hasKey "pages" = false ∧
    (resultadoToJson (processar_granite_doc emptyDoc)).hasKey "document" = false ∧
    (resultadoToJson (processar_granite_doc emptyDoc)).keys
      = ["elementos", "texto", "resumo"] := by
  decide

/-- C2 (amended): every successful conversion body carries exactly the keys
elementos, texto and resumo; texto holds the full-text string and elementos
the sequence of extracted elements; there is no page-size-descriptor
sequence. The memory-fallback success body carries the same three keys. -/
theorem c2_response_envelope (doc : DoclingDocument) :
    (resultadoToJson (processar_granite_doc doc)).keys
      = ["elementos", "texto", "resumo"] ∧
    (resultadoToJson (processar_granite_doc doc)).get "texto"
      = some (JValue.str (processar_granite_doc doc).texto) ∧
    (resultadoToJson (processar_granite_doc doc)).get "elementos"
      = some (JValue.arr ((processar_granite_doc doc).elementos.map elementoToJson)) ∧
    (resultadoToJson (fallback_doc doc)).keys
      = ["elementos", "texto", "resumo"] := by
  refine ⟨rfl, rfl, rfl, rfl⟩

/-- C3 counterexample: an upload whose filename is missing (None) is answered
with 500, not 400. -/
theorem c3_counterexample :
    ¬ ((converter_documento { filename := none, size := 1000 } true
        (ConvOutcome.ok emptyDoc) (ConvOutcome.ok emptyDoc)).statusCode = 400) := by
  decide

/-- C3 (amended): a missing (None) filename makes the handler's
`file.filename.lower()` raise before any validation, surfacing as HTTP 500;
an empty-string filename is answered 400 with a message, by the extension
check. -/
theorem c3_missing_filename (sz : Nat) (d : Bool) (c fb : ConvOutcome) :
    (converter_documento { filename := none, size := sz } d c fb).statusCode = 500 ∧
    (converter_documento { filename := some "", size := sz } d c fb).statusCode = 400 ∧
    (converter_documento { filename := some "", size := sz } d c fb).detail
      = some "Apenas arquivos PDF são aceitos" := by
  refine ⟨rfl, rfl, rfl⟩

/-- C4 counterexample: for a document with one text block and one
Granite-described picture, the returned full text is not the newline-join of
the text blocks (neither of all of them nor of the non-blank ones): it also
contains the Granite description line. -/
theorem c4_counterexample :
    ¬ ((processar_granite_doc sampleDoc).texto
        = String.intercalate "\n" (sampleDoc.texts.map (fun t => t.text))) ∧
    ¬ ((processar_granite_doc sampleDoc).texto
        = String.intercalate "\n"
            ((sampleDoc.texts.filter (fun t => !(trimStr t.text == ""))).map
              (fun t => t.text))) := by
  decide

/-- C4 (amended): the full-text string is the newline-join of the non-blank
text blocks, in order, followed by one formatted line per Granite picture
description; when that join is blank it is replaced by the fixed
no-text-extracted placeholder. -/
theorem c4_full_text (doc : DoclingDocument) :
    (processar_granite_doc doc).texto =
      (let joined := String.intercalate "\n"
        (((doc.texts.filter (fun t => !(trimStr t.text == ""))).map (fun t => t.text))
          ++ ((List.enumFrom 0 doc.pictures).flatMap (fun p =>
                (graniteDescs p.2.annots).map (graniteLine (pageOf p.2.prov) p.1))));
       if trimStr joined == "" then "Nenhum texto foi extraído do documento."
       else joined) := by
  rw [granite_texto]
  simp only [textsLoop_snd, picsLoopGranite_snd]

/-- C5: every extracted element's page number is its source item's first
provenance page when provenance is present and non-empty, and 1 otherwise:
each kind-group of the Granite result is the in-order image of its source list
under a builder whose page is `specPageNumber`, the spec-side page rule. -/
theorem c5_element_pages (doc : DoclingDocument) :
    (processar_granite_doc doc).elementos.filter (fun e => e.tipo == "texto")
      = (doc.texts.filter (fun t => !(trimStr t.text == ""))).map
          (fun t => Elemento.texto t.text (specPageNumber t.prov)) ∧
    (processar_granite_doc doc).elementos.filter (fun e => e.tipo == "tabela")
      = doc.tables.map (fun t => Elemento.tabela t.data (specPageNumber t.prov)) ∧
    (processar_granite_doc doc).elementos.filter (fun e => e.tipo == "imagem")
      = (List.enumFrom 0 doc.pictures).map (fun p =>
          Elemento.imagem (imgUrl "granite_img_p" p.2 (specPageNumber p.2.prov) p.1)
            p.2.caption (graniteDescs p.2.annots) (specPageNumber p.2.prov)) := by
  refine ⟨?_, ?_, ?_⟩
  · rw [granite_filter_texto, textsLoop_fst]
    simp only [pageOf_eq_spec]
  · rw [granite_filter_tabela]
    simp only [tablesLoop, pageOf_eq_spec]
  · rw [granite_filter_imagem, picsLoopGranite_fst]
    simp only [pageOf_eq_spec]

/-- C6: whenever a request reaches the temporary-file creation step, the
temporary file is gone from disk when the request completes, on every exit
path (success, re-raised HTTPException, or processing error). -/
theorem c6_temp_removed (req : Request) (d : Bool) (c fb : ConvOutcome)
    (_h : (converter_documento req d c fb).tempCreated = true) :
    (converter_documento req d c fb).tempOnDiskAfter = false := by
  rcases req with ⟨fn, sz⟩
  cases fn with
  | none => rfl
  | some fn =>
      unfold converter_documento
      dsimp only
      split
      · rfl
      · split
        · rfl
        · cases processar_documento_granite d c fb <;> rfl

/-- C6 witness: a concrete successful request creates the temporary file and
leaves none behind. -/
theorem c6_temp_removed_witness :
    (converter_documento { filename := some "a.pdf", size := 5 } true
        (ConvOutcome.ok emptyDoc) (ConvOutcome.ok emptyDoc)).tempCreated = true ∧
    (converter_documento { filename := some "a.pdf", size := 5 } true
        (ConvOutcome.ok emptyDoc) (ConvOutcome.ok emptyDoc)).tempOnDiskAfter = false :=
  ⟨by decide, c6_temp_removed { filename := some "a.pdf", size := 5 } true
      (ConvOutcome.ok emptyDoc) (ConvOutcome.ok emptyDoc) (by decide)⟩

/-- C7: an upload whose payload exceeds 25 MB (25 * 1024 * 1024 bytes) is
answered 400 with a message and the conversion step never runs, whatever the
filename string is. -/
theorem c7_oversized_rejected (fn : String) (sz : Nat) (d : Bool) (c fb : ConvOutcome)
    (h : 25 * 1024 * 1024 < sz) :
    (converter_documento { filename := some fn, size := sz } d c fb).statusCode = 400 ∧
    (converter_documento { filename := some fn, size := sz } d c fb).convAttempted
      = false ∧
    (converter_documento { filename := some fn, size := sz } d c fb).detail ≠ none := by
  unfold converter_documento
  dsimp only
  by_cases hext : strEndsWith (lowerStr fn) ".pdf" <;> simp [hext, h]

/-- C7 witness: a 25 MB + 1 byte upload is rejected with 400 before any
conversion. -/
theorem c7_oversized_rejected_witness :
    25 * 1024 * 1024 < 26214401 ∧
    ((converter_documento { filename := some "big.pdf", size := 26214401 } true
        (ConvOutcome.ok emptyDoc) (ConvOutcome.ok emptyDoc)).statusCode = 400 ∧
     (converter_documento { filename := some "big.pdf", size := 26214401 } true
        (ConvOutcome.ok emptyDoc) (ConvOutcome.ok emptyDoc)).convAttempted = false ∧
     (converter_documento { filename := some "big.pdf", size := 26214401 } true
        (ConvOutcome.ok emptyDoc) (ConvOutcome.ok emptyDoc)).detail ≠ none) :=
  ⟨by decide, c7_oversized_rejected "big.pdf" 26214401 true
      (ConvOutcome.ok emptyDoc) (ConvOutcome.ok emptyDoc) (by decide)⟩

/-- C8: an upload whose lowercased filename does not end in ".pdf" is answered
400 with the PDF-only message and the conversion step never runs. -/
theorem c8_bad_extension_rejected (fn : String) (sz : Nat) (d : Bool) (c fb : ConvOutcome)
    (h : strEndsWith (lowerStr fn) ".pdf" = false) :
    (converter_documento { filename := some fn, size := sz } d c fb).statusCode = 400 ∧
    (converter_documento { filename := some fn, size := sz } d c fb).convAttempted
      = false ∧
    (converter_documento { filename := some fn, size := sz } d c fb).detail
      = some "Apenas arquivos PDF são aceitos" := by
  unfold converter_documento
  dsimp only
  simp [h]

/-- C8 witness: a .txt upload is rejected with 400 before any conversion. -/
theorem c8_bad_extension_rejected_witness :
    strEndsWith (lowerStr "notes.txt") ".pdf" = false ∧
    ((converter_documento { filename := some "notes.txt", size := 10 } true
        (ConvOutcome.ok emptyDoc) (ConvOutcome.ok emptyDoc)).statusCode = 400 ∧
     (converter_documento { filename := some "notes.txt", size := 10 } true
        (ConvOutcome.ok emptyDoc) (ConvOutcome.ok emptyDoc)).convAttempted = false ∧
     (converter_documento { filename := some "notes.txt", size := 10 } true
        (ConvOutcome.ok emptyDoc) (ConvOutcome.ok emptyDoc)).detail
       = some "Apenas arquivos PDF são aceitos") :=
  ⟨by decide, c8_bad_extension_rejected "notes.txt" 10 true
      (ConvOutcome.ok emptyDoc) (ConvOutcome.ok emptyDoc) (by decide)⟩

/-- C9 counterexample: the body of GET /status contains no top-level status
field, with the library loaded or not. -/
theorem c9_counterexample :
    (status_detalhado true).2.hasKey "status" = false ∧
    (status_detalhado false).2.hasKey "status" = false := by
  decide

/-- C9 (amended): GET / and GET /test always return 200 with a body containing
a status field, whatever the library-load flag; GET /status also always
returns 200, but its body has no top-level status field — it reports
docling_disponivel instead. -/
theorem c9_health_endpoints (d : Bool) :
    (status d).1 = 200 ∧ (status d).2.hasKey "status" = true ∧
    (teste d).1 = 200 ∧ (teste d).2.hasKey "status" = true ∧
    (status_detalhado d).1 = 200 ∧
    (status_detalhado d).2.hasKey "docling_disponivel" = true ∧
    (status_detalhado d).2.hasKey "status" = false := by
  refine ⟨rfl, rfl, rfl, rfl, rfl, rfl, rfl⟩

/-- C10: in both the Granite result and the no-VLM fallback result, the
elements are grouped by kind — ranks (texto 0, tabela 1, imagem 2) are weakly
increasing along the list — and each kind-group is the in-order image of its
source list. -/
theorem c10_elements_grouped (doc : DoclingDocument) :
    (((processar_granite_doc doc).elementos).Pairwise (fun a b => a.rank ≤ b.rank) ∧
     ((fallback_doc doc).elementos).Pairwise (fun a b => a.rank ≤ b.rank)) ∧
    ((processar_granite_doc doc).elementos.filter (fun e => e.tipo == "texto")
       = (doc.texts.filter (fun t => !(trimStr t.text == ""))).map
           (fun t => Elemento.texto t.text (pageOf t.prov)) ∧
     (processar_granite_doc doc).elementos.filter (fun e => e.tipo == "tabela")
       = doc.tables.map (fun t => Elemento.tabela t.data (pageOf t.prov)) ∧
     (processar_granite_doc doc).elementos.filter (fun e => e.tipo == "imagem")
       = (List.enumFrom 0 doc.pictures).map (fun p =>
           Elemento.imagem (imgUrl "granite_img_p" p.2 (pageOf p.2.prov) p.1)
             p.2.caption (graniteDescs p.2.annots) (pageOf p.2.prov))) ∧
    ((fallback_doc doc).elementos.filter (fun e => e.tipo == "texto")
       = (doc.texts.filter (fun t => !(trimStr t.text == ""))).map
           (fun t => Elemento.texto t.text (pageOf t.prov)) ∧
     (fallback_doc doc).elementos.filter (fun e => e.tipo == "tabela")
       = doc.tables.map (fun t => Elemento.tabela t.data (pageOf t.prov)) ∧
     (fallback_doc doc).elementos.filter (fun e => e.tipo == "imagem")
       = (List.enumFrom 0 doc.pictures).map (fun p =>
           Elemento.imagem (imgUrl "fallback_img_p" p.2 (pageOf p.2.prov) p.1)
             p.2.caption [] (pageOf p.2.prov))) := by
  refine ⟨⟨granite_grouped doc, fallback_grouped doc⟩, ⟨?_, ?_, ?_⟩, ?_, ?_, ?_⟩
  · rw [granite_filter_texto, textsLoop_fst]
  · rw [granite_filter_tabela, tablesLoop]
  · rw [granite_filter_imagem, picsLoopGranite_fst]
  · rw [fallback_filter_texto, textsLoop_fst]
  · rw [fallback_filter_tabela, tablesLoop]
  · rw [fallback_filter_imagem, picsLoopFallback_eq]

end DoclingServer
